import Mathlib

/-!
Verification of the numeric and asset-decoding core of the richter engine.

The development shallowly embeds the two source files:

* `math.rs` — the `Mat4` type and its operations.  The Rust `f32` cells are
  idealized as real numbers, so "equal within floating-point tolerance" is
  established here as exact equality of the idealized real arithmetic.
* `engine.rs` — the palette store and the indexed-texture decoder.  Bytes are
  modelled as natural numbers (< 256 where it matters), the `u32` product
  `width * height` is modelled with an explicit `% 2 ^ 32`, and the two
  `panic!` exits are modelled as `Option` / `Except` failures carrying the
  datum the Rust diagnostic reports.
-/

namespace Richter

/-- A 4x4 matrix (`Mat4` in `math.rs`), cells indexed row-then-column as in the
Rust array-of-rows `[[f32; 4]; 4]`, with `f32` idealized as `ℝ`. -/
abbrev Mat4 := Fin 4 → Fin 4 → ℝ

/-- The multiplication of `impl Mul for Mat4`:
`result[i][j] = Σ_k self[k][j] * rhs[i][k]` (the loop accumulates from `0.0`
over `k = 0..4`; real addition makes the order immaterial). -/
def mat4_mul (a b : Mat4) : Mat4 :=
  fun i j => ∑ k : Fin 4, a k j * b i k

/-- The rows of `Mat4::identity()`. -/
def identity : Mat4 :=
  ![![1, 0, 0, 0],
    ![0, 1, 0, 0],
    ![0, 0, 1, 0],
    ![0, 0, 0, 1]]

/-- The rows of `Mat4::rotation_z(theta)`, with `s = sin theta`, `c = cos theta`. -/
noncomputable def rotation_z (θ : ℝ) : Mat4 :=
  ![![Real.cos θ, Real.sin θ, 0, 0],
    ![-Real.sin θ, Real.cos θ, 0, 0],
    ![0, 0, 1, 0],
    ![0, 0, 0, 1]]

/-- The rows of `Mat4::translation(x, y, z)`. -/
def translation (x y z : ℝ) : Mat4 :=
  ![![1, 0, 0, 0],
    ![0, 1, 0, 0],
    ![0, 0, 1, 0],
    ![x, y, z, 1]]

/-- Application of a matrix to a homogeneous row 4-vector, the convention the
translation layout of `math.rs` fixes: the row vector is multiplied on the
right by the cell array, `(v * M)_j = Σ_i v_i * M[i][j]`. -/
def applyVec (m : Mat4) (v : Fin 4 → ℝ) : Fin 4 → ℝ :=
  fun j => ∑ i : Fin 4, v i * m i j

/-- The homogeneous row vector of a point: `(px, py, pz, 1)`. -/
def pointVec (p : ℝ × ℝ × ℝ) : Fin 4 → ℝ :=
  ![p.1, p.2.1, p.2.2, 1]

/-- Transforming a point: embed as a homogeneous row vector, multiply by the
matrix, read back the first three components. -/
def applyPoint (m : Mat4) (p : ℝ × ℝ × ℝ) : ℝ × ℝ × ℝ :=
  (applyVec m (pointVec p) 0, applyVec m (pointVec p) 1, applyVec m (pointVec p) 2)

/-- The textbook row-major matrix product, written from the spec's words:
`C[i][j] = Σ_k X[i][k] * Y[k][j]`. -/
def textbookMul (x y : Mat4) : Mat4 :=
  fun i j => ∑ k : Fin 4, x i k * y k j

/-- The palette loader of `engine.rs`: a 768-byte buffer is filled by one
`read` call from the source.  `read` on a regular file stores
`min (source.length) 768` bytes and returns that count; the `match` accepts
only a count of exactly 768 (`Ok(768) => _palette`) and the buffer is then the
first 768 source bytes.  Every other outcome is a `panic!`, modelled as
`none`. -/
def paletteLoad (source : List Nat) : Option (List Nat) :=
  if min source.length 768 = 768 then some (source.take 768) else none

/-- The per-pixel body of the decode loop in `tex_from_indexed`: a non-sentinel
index byte `b` pushes `PALETTE[3*b + c]` for `c = 0, 1, 2` and then `0xff`;
the sentinel byte `0xff` pushes four zero bytes. -/
def decodePixel (palette : List Nat) (b : Nat) : List Nat :=
  if b ≠ 0xff then
    [palette.getD (3 * b) 0, palette.getD (3 * b + 1) 0, palette.getD (3 * b + 2) 0, 0xff]
  else
    [0, 0, 0, 0]

/-- `tex_from_indexed` of `engine.rs`, up to the GPU upload (the `RawImage2d` /
`Texture2d` calls consume the byte buffer unchanged, so the modelled result is
the `rgba` buffer).  `width` and `height` are `u32` values and their product
is computed in `u32` arithmetic, hence the explicit `% 2 ^ 32`; the length
check's `panic!` reports `indices.len()`, modelled as `Except.error` carrying
that length.  The process-wide `PALETTE` is passed explicitly. -/
def tex_from_indexed (palette : List Nat) (indices : List Nat) (width height : Nat) :
    Except Nat (List Nat) :=
  if indices.length ≠ width * height % 2 ^ 32 then
    Except.error indices.length
  else
    Except.ok (indices.flatMap (decodePixel palette))

end Richter

namespace Richter

/-- Application of a matrix to a homogeneous row vector is linear in the
matrix in the way that makes the code's product a composition: multiplying by
`mat4_mul A B` is applying `B`, then `A`. -/
lemma applyVec_mat4_mul (A B : Mat4) (v : Fin 4 → ℝ) :
    applyVec (mat4_mul A B) v = applyVec A (applyVec B v) := by
  funext j
  simp only [applyVec, mat4_mul, Fin.sum_univ_four]
  ring

/-- Round trip of the z-rotation for an arbitrary real angle. -/
lemma rotation_z_mul_rotation_z_neg (θ : ℝ) :
    mat4_mul (rotation_z θ) (rotation_z (-θ)) = identity := by
  funext i j
  fin_cases i <;> fin_cases j <;>
    simp [mat4_mul, rotation_z, identity, Fin.sum_univ_four, Matrix.vecHead,
      Matrix.vecTail, Real.sin_neg, Real.cos_neg] <;>
    ring_nf <;>
    simp [Real.sin_sq_add_cos_sq, Real.cos_sq_add_sin_sq]

/-- C1: with point application fixed by the translation layout (the point
`(px, py, pz)` is the row vector `(px, py, pz, 1)` multiplied on the right by
the 4x4 cell array), `A * B` applied to a point equals `A` applied to (`B`
applied to the point), for every pair of matrices; and transforming the origin
by `translation(1,2,3)` yields `(1,2,3)`.  Equality is exact in the idealized
real arithmetic. -/
theorem mul_composes_application :
    (∀ (A B : Mat4) (p : ℝ × ℝ × ℝ),
      applyVec (mat4_mul A B) (pointVec p) = applyVec A (applyVec B (pointVec p))) ∧
    applyPoint (translation 1 2 3) (0, 0, 0) = (1, 2, 3) := by
  refine ⟨fun A B p => applyVec_mat4_mul A B (pointVec p), ?_⟩
  simp [applyPoint, applyVec, translation, pointVec, Fin.sum_univ_four,
    Matrix.vecHead, Matrix.vecTail]

/-- C7: `identity()` is a two-sided multiplicative identity: for every `Mat4`
value `M`, `identity * M = M` and `M * identity = M`, cell by cell (exact
equality of the idealized real arithmetic). -/
theorem identity_mul_two_sided (M : Mat4) :
    mat4_mul identity M = M ∧ mat4_mul M identity = M := by
  constructor <;>
  · funext i j
    fin_cases i <;> fin_cases j <;>
      simp [mat4_mul, identity, Fin.sum_univ_four, Matrix.vecHead, Matrix.vecTail]

/-- C8: for every angle in the sample set 0, pi/4, pi/2, pi, the product
`rotation_z(theta) * rotation_z(-theta)` equals `identity()` cell by cell
(exact equality of the idealized real arithmetic). -/
theorem rotation_z_round_trip_samples :
    mat4_mul (rotation_z 0) (rotation_z (-0)) = identity ∧
    mat4_mul (rotation_z (Real.pi / 4)) (rotation_z (-(Real.pi / 4))) = identity ∧
    mat4_mul (rotation_z (Real.pi / 2)) (rotation_z (-(Real.pi / 2))) = identity ∧
    mat4_mul (rotation_z Real.pi) (rotation_z (-Real.pi)) = identity :=
  ⟨rotation_z_mul_rotation_z_neg 0, rotation_z_mul_rotation_z_neg _,
    rotation_z_mul_rotation_z_neg _, rotation_z_mul_rotation_z_neg _⟩

/-- C10: the cell array of `A * B` equals the textbook row-major product of
`B`'s array times `A`'s array — operands swapped relative to the standard
convention — exactly, cell by cell. -/
theorem mat4_mul_is_swapped_textbook (a b : Mat4) :
    mat4_mul a b = textbookMul b a := by
  funext i j
  unfold mat4_mul textbookMul
  exact Finset.sum_congr rfl fun k _ => mul_comm _ _

/-- Each pixel contributes exactly four output bytes. -/
lemma decodePixel_length (palette : List Nat) (b : Nat) :
    (decodePixel palette b).length = 4 := by
  unfold decodePixel
  split <;> rfl

/-- The decode loop produces four bytes per index byte. -/
lemma flatMap_decodePixel_length (palette : List Nat) (l : List Nat) :
    (l.flatMap (decodePixel palette)).length = 4 * l.length := by
  induction l with
  | nil => rfl
  | cons a l ih =>
    simp [List.flatMap_cons, decodePixel_length, ih, Nat.mul_succ, Nat.mul_add]
    omega

/-- The four output bytes at position `4 * k` of the decode loop come from the
index byte at position `k`. -/
lemma flatMap_decodePixel_getD (palette : List Nat) (l : List Nat) (k c : Nat)
    (hk : k < l.length) (hc : c < 4) :
    (l.flatMap (decodePixel palette)).getD (4 * k + c) 0 =
      (decodePixel palette (l.getD k 0)).getD c 0 := by
  induction l generalizing k with
  | nil => simp at hk
  | cons a l ih =>
    rw [List.flatMap_cons]
    cases k with
    | zero =>
      rw [Nat.mul_zero, Nat.zero_add]
      rw [List.getD_append _ _ _ _ (by rw [decodePixel_length]; exact hc)]
      rfl
    | succ k =>
      have hlen : (decodePixel palette a).length ≤ 4 * (k + 1) + c := by
        rw [decodePixel_length]; omega
      rw [List.getD_append_right _ _ _ _ hlen]
      have hsub : 4 * (k + 1) + c - (decodePixel palette a).length = 4 * k + c := by
        rw [decodePixel_length]; omega
      rw [hsub]
      have hk' : k < l.length := by
        have := hk; simp only [List.length_cons] at this; omega
      rw [ih k hk']
      rfl

/-- A load that succeeds from a 768-byte source returns exactly that source. -/
lemma paletteLoad_of_length_eq (source palette : List Nat) (hs : source.length = 768)
    (hload : paletteLoad source = some palette) : palette = source := by
  unfold paletteLoad at hload
  rw [if_pos (by rw [hs]; exact Nat.min_self 768)] at hload
  have := Option.some.inj hload
  rw [← this, ← hs, List.take_length]

/-- A successful decode returns the concatenation of the per-pixel bytes. -/
lemma tex_from_indexed_ok_out (palette indices out : List Nat) (width height : Nat)
    (hdec : tex_from_indexed palette indices width height = Except.ok out) :
    out = indices.flatMap (decodePixel palette) := by
  unfold tex_from_indexed at hdec
  split at hdec
  · exact absurd hdec (by simp)
  · exact (Except.ok.inj hdec).symm

/-- Loading from a uniform source of at least 768 bytes succeeds with the
first 768 of them. -/
lemma paletteLoad_replicate (n a : Nat) (h : 768 ≤ n) :
    paletteLoad (List.replicate n a) = some (List.replicate 768 a) := by
  unfold paletteLoad
  rw [List.length_replicate, if_pos (Nat.min_eq_right h)]
  rw [List.take_replicate, Nat.min_eq_left h]

/-- C2: for a palette loaded from a well-formed 768-byte source and a
non-sentinel index byte `i` at pixel position `k` of an image the decoder
accepts, the four output bytes at position `4 * k` are
`(source[3*i], source[3*i + 1], source[3*i + 2], 255)`. -/
theorem tex_from_indexed_nonsentinel (source palette indices out : List Nat)
    (width height k i : Nat)
    (hs : source.length = 768)
    (hload : paletteLoad source = some palette)
    (hdec : tex_from_indexed palette indices width height = Except.ok out)
    (hk : k < indices.length) (hi : indices.getD k 0 = i)
    (hne : i ≠ 0xff) (hlt : i < 256) :
    out.getD (4 * k) 0 = source.getD (3 * i) 0 ∧
    out.getD (4 * k + 1) 0 = source.getD (3 * i + 1) 0 ∧
    out.getD (4 * k + 2) 0 = source.getD (3 * i + 2) 0 ∧
    out.getD (4 * k + 3) 0 = 0xff := by
  have hpal := paletteLoad_of_length_eq source palette hs hload
  have hout := tex_from_indexed_ok_out palette indices out width height hdec
  have h0 := flatMap_decodePixel_getD source indices k 0 hk (by omega)
  have h1 := flatMap_decodePixel_getD source indices k 1 hk (by omega)
  have h2 := flatMap_decodePixel_getD source indices k 2 hk (by omega)
  have h3 := flatMap_decodePixel_getD source indices k 3 hk (by omega)
  rw [Nat.add_zero] at h0
  rw [hout, hpal, h0, h1, h2, h3, hi]
  unfold decodePixel
  rw [if_pos hne]
  exact ⟨rfl, rfl, rfl, rfl⟩

/-- C2 witness: a uniform source of 768 bytes of value 9, a single-pixel image
with index byte 0; the decoder emits `(9, 9, 9, 255)`. -/
theorem tex_from_indexed_nonsentinel_witness :
    ([9, 9, 9, 0xff] : List Nat).getD 0 0 = (List.replicate 768 9).getD 0 0 ∧
    ([9, 9, 9, 0xff] : List Nat).getD 1 0 = (List.replicate 768 9).getD 1 0 ∧
    ([9, 9, 9, 0xff] : List Nat).getD 2 0 = (List.replicate 768 9).getD 2 0 ∧
    ([9, 9, 9, 0xff] : List Nat).getD 3 0 = 0xff :=
  tex_from_indexed_nonsentinel (List.replicate 768 9) (List.replicate 768 9) [0]
    [9, 9, 9, 0xff] 1 1 0 0 (by rw [List.length_replicate])
    (paletteLoad_replicate 768 9 (by norm_num)) (by rfl) (by decide) (by rfl)
    (by decide) (by decide)

/-- C3: at a pixel position holding the sentinel byte `0xff`, the four output
bytes are `(0, 0, 0, 0)`, for every palette content. -/
theorem tex_from_indexed_sentinel (palette indices out : List Nat)
    (width height k : Nat)
    (hdec : tex_from_indexed palette indices width height = Except.ok out)
    (hk : k < indices.length) (hi : indices.getD k 0 = 0xff) :
    out.getD (4 * k) 0 = 0 ∧ out.getD (4 * k + 1) 0 = 0 ∧
    out.getD (4 * k + 2) 0 = 0 ∧ out.getD (4 * k + 3) 0 = 0 := by
  have hout := tex_from_indexed_ok_out palette indices out width height hdec
  have h0 := flatMap_decodePixel_getD palette indices k 0 hk (by omega)
  have h1 := flatMap_decodePixel_getD palette indices k 1 hk (by omega)
  have h2 := flatMap_decodePixel_getD palette indices k 2 hk (by omega)
  have h3 := flatMap_decodePixel_getD palette indices k 3 hk (by omega)
  rw [Nat.add_zero] at h0
  rw [hout, h0, h1, h2, h3, hi]
  unfold decodePixel
  rw [if_neg (by decide)]
  exact ⟨rfl, rfl, rfl, rfl⟩

/-- C3 witness: a single sentinel pixel decodes to `(0, 0, 0, 0)` with the
palette `[1, 2, 3]`. -/
theorem tex_from_indexed_sentinel_witness :
    ([0, 0, 0, 0] : List Nat).getD 0 0 = 0 ∧
    ([0, 0, 0, 0] : List Nat).getD 1 0 = 0 ∧
    ([0, 0, 0, 0] : List Nat).getD 2 0 = 0 ∧
    ([0, 0, 0, 0] : List Nat).getD 3 0 = 0 :=
  tex_from_indexed_sentinel [1, 2, 3] [0xff] [0, 0, 0, 0] 1 1 0
    (by rfl) (by decide) (by rfl)

/-- C4 counterexample: a source of 769 bytes — not 768 — loads successfully,
yielding the first 768 bytes; the claim that every length other than 768
fails is false on the code, whose single `read` into a 768-byte buffer
returns `Ok(768)` for any source of at least 768 bytes. -/
theorem paletteLoad_769_succeeds :
    (List.replicate 769 5).length ≠ 768 ∧
    paletteLoad (List.replicate 769 5) = some (List.replicate 768 5) := by
  constructor
  · rw [List.length_replicate]; norm_num
  · exact paletteLoad_replicate 769 5 (by norm_num)

/-- C4 amended: loading fails (with the fatal Resource-Integrity panic) and
yields no table exactly when the source has fewer than 768 bytes; every
source of 768 or more bytes loads successfully, yielding its first 768
bytes, and a source of exactly 768 bytes loads to exactly its bytes. -/
theorem paletteLoad_length_cases (source : List Nat) :
    (source.length < 768 → paletteLoad source = none) ∧
    (768 ≤ source.length → paletteLoad source = some (source.take 768)) ∧
    (source.length = 768 → paletteLoad source = some source) := by
  refine ⟨fun h => ?_, fun h => ?_, fun h => ?_⟩
  · unfold paletteLoad
    rw [if_neg (by rw [Nat.min_eq_left (Nat.le_of_lt h)]; omega)]
  · unfold paletteLoad
    rw [if_pos (Nat.min_eq_right h)]
  · unfold paletteLoad
    rw [if_pos (by rw [h]; exact Nat.min_self 768)]
    rw [← h, List.take_length]

/-- C4 amended witness: a short source fails, an oversized source succeeds
with its first 768 bytes, and an exact source succeeds with its own bytes. -/
theorem paletteLoad_length_cases_witness :
    paletteLoad (List.replicate 767 3) = none ∧
    paletteLoad (List.replicate 769 4) = some (List.replicate 768 4) ∧
    paletteLoad (List.replicate 768 3) = some (List.replicate 768 3) :=
  ⟨(paletteLoad_length_cases (List.replicate 767 3)).1
      (by rw [List.length_replicate]; norm_num),
   by
    rw [(paletteLoad_length_cases (List.replicate 769 4)).2.1
      (by rw [List.length_replicate]; norm_num)]
    rw [List.take_replicate]
    norm_num,
   (paletteLoad_length_cases (List.replicate 768 3)).2.2 (by rw [List.length_replicate])⟩

/-- C5 counterexample: with `width = height = 2^16` the `u32` product wraps to
0, so the empty index list — whose length 0 differs from the mathematical
product `2^32` — passes the check and decodes to an empty buffer instead of
failing. -/
theorem tex_from_indexed_mismatch_counterexample :
    ([] : List Nat).length ≠ 2 ^ 16 * 2 ^ 16 ∧
    tex_from_indexed [] [] (2 ^ 16) (2 ^ 16) = Except.ok [] := by
  constructor
  · norm_num
  · unfold tex_from_indexed
    norm_num

/-- C5 amended: whenever the index list's length differs from the `u32`
product `width * height mod 2^32` — for `width * height < 2^32` this is
exactly `length ≠ width * height` — the decoder fails with the
Shape-Mismatch panic reporting the offending actual length, and produces no
output buffer. -/
theorem tex_from_indexed_length_mismatch (palette indices : List Nat)
    (width height : Nat)
    (h : indices.length ≠ width * height % 2 ^ 32) :
    tex_from_indexed palette indices width height = Except.error indices.length := by
  unfold tex_from_indexed
  rw [if_pos h]

/-- C5 amended witness: one index byte against a 0-by-0 image fails,
reporting length 1. -/
theorem tex_from_indexed_length_mismatch_witness :
    tex_from_indexed [] [0] 0 0 = Except.error 1 :=
  tex_from_indexed_length_mismatch [] [0] 0 0 (by decide)

/-- C6 counterexample: an index list of length `2^32` for `width = height =
2^16` satisfies the claimed precondition `length = width * height`, yet the
wrapped `u32` check compares against 0 and the decoder fails instead of
returning a `4 * width * height` buffer. -/
theorem tex_from_indexed_huge_counterexample :
    (List.replicate (2 ^ 32) 0 : List Nat).length = 2 ^ 16 * 2 ^ 16 ∧
    tex_from_indexed [] (List.replicate (2 ^ 32) 0) (2 ^ 16) (2 ^ 16) =
      Except.error (2 ^ 32) := by
  constructor
  · rw [List.length_replicate]; norm_num
  · unfold tex_from_indexed
    rw [if_pos (by rw [List.length_replicate]; norm_num)]
    rw [List.length_replicate]

/-- C6 amended: for every index list, width and height with
`length = width * height` and `width * height < 2^32` (no `u32` overflow),
the decoder succeeds and returns a buffer of length exactly
`4 * width * height`. -/
theorem tex_from_indexed_output_length (palette indices : List Nat)
    (width height : Nat)
    (hlen : indices.length = width * height) (hsz : width * height < 2 ^ 32) :
    tex_from_indexed palette indices width height =
      Except.ok (indices.flatMap (decodePixel palette)) ∧
    (indices.flatMap (decodePixel palette)).length = 4 * (width * height) := by
  constructor
  · unfold tex_from_indexed
    rw [hlen, Nat.mod_eq_of_lt hsz]
    simp
  · rw [flatMap_decodePixel_length, hlen]

/-- C6 amended witness: two sentinel pixels in a 2-by-1 image produce eight
output bytes. -/
theorem tex_from_indexed_output_length_witness :
    tex_from_indexed [] [0xff, 0xff] 2 1 =
      Except.ok (([0xff, 0xff] : List Nat).flatMap (decodePixel [])) ∧
    (([0xff, 0xff] : List Nat).flatMap (decodePixel [])).length = 4 * (2 * 1) :=
  tex_from_indexed_output_length [] [0xff, 0xff] 2 1 (by decide) (by norm_num)

/-- C9: the length check uses the `u32` product: for `u32` width and height
whose mathematical product is at least `2^32`, an index list of the wrapped
length `width * height mod 2^32` passes the check and is decoded. -/
theorem tex_from_indexed_u32_wrap (palette indices : List Nat)
    (width height : Nat)
    (hw : width < 2 ^ 32) (hh : height < 2 ^ 32) (hp : 2 ^ 32 ≤ width * height)
    (hlen : indices.length = width * height % 2 ^ 32) :
    tex_from_indexed palette indices width height =
      Except.ok (indices.flatMap (decodePixel palette)) := by
  unfold tex_from_indexed
  rw [if_neg fun hne => hne hlen]

/-- C9 witness: `width = height = 2^16` overflows to 0, and the empty index
list is accepted and decoded. -/
theorem tex_from_indexed_u32_wrap_witness :
    tex_from_indexed [7] [] (2 ^ 16) (2 ^ 16) =
      Except.ok (([] : List Nat).flatMap (decodePixel [7])) :=
  tex_from_indexed_u32_wrap [7] [] (2 ^ 16) (2 ^ 16) (by norm_num) (by norm_num)
    (by norm_num) (by norm_num)

end Richter
